import Mathlib

/-!
Verification of the gemini-report-generator pipeline.

Shallow embedding of the retry loop (`src/utils.py` `retry_with_backoff`,
`src/app.py` `ReportGenerator.generate_content`), the citation rewriting of
grounding metadata (`src/main.py` and
`src/report_generator/section_generator.py` `generate_section_content`),
the TOC parsing (`src/main1.py` `parse_table_of_contents`, `src/app.py`
`ReportGenerator.extract_sections_from_toc`), the per-section orchestration
(`src/app.py` `ReportGenerator.process_report`, the module-level loop of
`src/main.py`, the loop of `main` in `src/main1.py`) and the file output
(`src/report_generator/file_output.py` `save_report_files`, `src/app.py`
`ReportGenerator.save_to_markdown`).
-/

/-! ## Retry loop

Both `retry_with_backoff` (src/utils.py lines 34-66) and the inline retry
loop of `ReportGenerator.generate_content` (src/app.py lines 362-397) run
the same control flow:

    for attempt in range(max_retries):
        try:
            return op()
        except Exception as e:
            last_exception = e
            if attempt < max_retries - 1:
                <log, sleep>
            else:
                raise last_exception     # utils.py  (app.py: `raise`)
    return None                          # reached only when max_retries == 0

`retryLoopGo` embeds that loop once; the two named definitions below
instantiate it for the two source functions.  The attempt outcomes are
given as a function from the 0-based attempt index to `Except`
(`.error` = the invocation raised).  The result is the propagated outcome
(`none` models the `return None` fall-through of an empty loop) together
with the number of invocations performed.  Logging and sleeping are I/O
and are modelled separately (see the jitter definitions below). -/
def retryLoopGo (f : Nat → Except String String) (maxRetries : Nat) :
    Nat → Nat → Option (Except String String) × Nat
  | attempt, 0 => (none, attempt)
  | attempt, remaining + 1 =>
    match f attempt with
    | .ok a => (some (.ok a), attempt + 1)
    | .error e =>
      if attempt < maxRetries - 1 then
        retryLoopGo f maxRetries (attempt + 1) remaining
      else
        (some (.error e), attempt + 1)

/-- `retry_with_backoff` from src/utils.py: run the wrapped operation at most
`maxRetries` times, re-raising the last error after the final failure. -/
def retry_with_backoff (f : Nat → Except String String) (maxRetries : Nat) :
    Option (Except String String) × Nat :=
  retryLoopGo f maxRetries 0 maxRetries

/-- The retry loop inside `ReportGenerator.generate_content`
(src/app.py lines 370-397); its control flow coincides with
`retry_with_backoff` (the differences are logging, the jittered sleep and
the history append on success). -/
def generate_content_retry (f : Nat → Except String String) (maxRetries : Nat) :
    Option (Except String String) × Nat :=
  retryLoopGo f maxRetries 0 maxRetries

theorem retryLoopGo_allFail (f : Nat → Except String String) (N : Nat) :
    ∀ remaining attempt, attempt + remaining = N → 0 < remaining →
      (∀ k, attempt ≤ k → k < N → (f k).isOk = false) →
      retryLoopGo f N attempt remaining = (some (f (N - 1)), N) := by
  intro remaining
  induction remaining with
  | zero => intro attempt _ h; omega
  | succ r ih =>
    intro attempt hsum _ hfail
    have hAlt : attempt < N := by omega
    have hthis : (f attempt).isOk = false := hfail attempt (Nat.le_refl _) hAlt
    cases hfa : f attempt with
    | ok a => rw [hfa] at hthis; simp [Except.isOk, Except.toBool] at hthis
    | error e =>
      rw [retryLoopGo, hfa]
      dsimp only
      by_cases hlt : attempt < N - 1
      · rw [if_pos hlt]
        have hr : 0 < r := by omega
        exact ih (attempt + 1) (by omega) hr
          (fun k hk1 hk2 => hfail k (by omega) hk2)
      · rw [if_neg hlt]
        have hEq : attempt = N - 1 := by omega
        subst hEq
        rw [← hfa]
        have hN1 : N - 1 + 1 = N := by omega
        rw [hN1]

theorem retryLoopGo_firstSuccess (f : Nat → Except String String) (N : Nat) :
    ∀ remaining attempt s, attempt + remaining = N → attempt ≤ s → s < N →
      (f s).isOk = true →
      (∀ k, attempt ≤ k → k < s → (f k).isOk = false) →
      retryLoopGo f N attempt remaining = (some (f s), s + 1) := by
  intro remaining
  induction remaining with
  | zero => intro attempt s h _ _ _ _; omega
  | succ r ih =>
    intro attempt s hsum hle hlt hok hfail
    by_cases hEq : attempt = s
    · subst hEq
      cases hfa : f attempt with
      | ok a => rw [retryLoopGo, hfa]
      | error e => rw [hfa] at hok; simp [Except.isOk, Except.toBool] at hok
    · have haltS : attempt < s := by omega
      have hthis : (f attempt).isOk = false := hfail attempt (Nat.le_refl _) haltS
      cases hfa : f attempt with
      | ok a => rw [hfa] at hthis; simp [Except.isOk, Except.toBool] at hthis
      | error e =>
        rw [retryLoopGo, hfa]
        dsimp only
        have hlt1 : attempt < N - 1 := by omega
        rw [if_pos hlt1]
        exact ih (attempt + 1) s (by omega) (by omega) hlt hok
          (fun k hk1 hk2 => hfail k (by omega) hk2)

/-- **C1.** For every zero-argument operation (modelled by its per-attempt
outcomes `f`) and every `maxRetries = N ≥ 1`: if every invocation fails,
both `retry_with_backoff` and the retry loop of
`ReportGenerator.generate_content` invoke the operation exactly `N` times
and re-raise the outcome of the last invocation (an error, so no partial
result is returned); if the first success happens on attempt `K ≤ N`
(1-based), the operation is invoked exactly `K` times and its result is
propagated. -/
theorem retry_invocation_counts (f : Nat → Except String String) (N : Nat)
    (hN : 1 ≤ N) :
    ((∀ k, k < N → (f k).isOk = false) →
      retry_with_backoff f N = (some (f (N - 1)), N) ∧
      generate_content_retry f N = (some (f (N - 1)), N)) ∧
    (∀ K, 1 ≤ K → K ≤ N → (f (K - 1)).isOk = true →
      (∀ k, k < K - 1 → (f k).isOk = false) →
      retry_with_backoff f N = (some (f (K - 1)), K) ∧
      generate_content_retry f N = (some (f (K - 1)), K)) := by
  constructor
  · intro hfail
    have h := retryLoopGo_allFail f N N 0 (by omega) (by omega)
      (fun k _ hk => hfail k hk)
    exact ⟨h, h⟩
  · intro K hK1 hKN hok hfail
    have h := retryLoopGo_firstSuccess f N N 0 (K - 1) (by omega) (by omega)
      (by omega) hok (fun k _ hk => hfail k hk)
    have hK : K - 1 + 1 = K := by omega
    rw [hK] at h
    exact ⟨h, h⟩

/-- Concrete operation for the C1 witness: fails on attempts 1 and 2,
succeeds on attempt 3. -/
def witnessOp : Nat → Except String String :=
  fun k => if k < 2 then .error "boom" else .ok "value"

/-- Witness for C1: with `maxRetries = 3` and an operation failing twice then
succeeding, the retry loop invokes it exactly 3 times and returns the
success. -/
theorem retry_invocation_counts_witness :
    retry_with_backoff witnessOp 3 = (some (.ok "value"), 3) ∧
    generate_content_retry witnessOp 3 = (some (.ok "value"), 3) := by
  have h := (retry_invocation_counts witnessOp 3 (by decide)).2 3 (by decide)
    (by decide) (by decide) (by decide)
  have hv : witnessOp (3 - 1) = .ok "value" := rfl
  rw [hv] at h
  exact h

/-! ## Backoff delays and jitter

`retry_with_backoff` (src/utils.py lines 39-55) sleeps a deterministic,
exponentially growing delay: `delay` starts at `initial_delay` and after
each sleep `delay = min(delay * 2, max_delay)`.  The retry loop of
`ReportGenerator.generate_content` (src/app.py lines 389-394) instead
sleeps `self.config['retry_delay'] * (1 + random.random())`. -/

/-- The duration of the `k`-th sleep (0-based) performed by
`retry_with_backoff` from src/utils.py: `utilsSleepDelay init max 0 = init`
and each later sleep doubles the previous one, capped at `max_delay`. -/
def utilsSleepDelay (initialDelay maxDelay : ℚ) : Nat → ℚ
  | 0 => initialDelay
  | k + 1 => min (utilsSleepDelay initialDelay maxDelay k * 2) maxDelay

/-- The duration of the `k`-th sleep performed by the retry loop of
`ReportGenerator.generate_content` (src/app.py line 392), where `jitter k`
is the value returned by `random.random()` at that point. -/
def appSleepDelay (retryDelay : ℚ) (jitter : Nat → ℚ) (k : Nat) : ℚ :=
  retryDelay * (1 + jitter k)

theorem utilsSleepDelay_closed_form (initialDelay maxDelay : ℚ)
    (h0 : 0 ≤ initialDelay) (hle : initialDelay ≤ maxDelay) :
    ∀ k, utilsSleepDelay initialDelay maxDelay k =
      min (initialDelay * 2 ^ k) maxDelay := by
  intro k
  induction k with
  | zero =>
    rw [utilsSleepDelay, pow_zero, mul_one, min_eq_left hle]
  | succ n ih =>
    rw [utilsSleepDelay, ih]
    rcases le_total (initialDelay * 2 ^ n) maxDelay with h | h
    · rw [min_eq_left h]
      rcases le_total (initialDelay * 2 ^ n * 2) maxDelay with h2 | h2
      · rw [min_eq_left h2, pow_succ, ← mul_assoc, min_eq_left h2]
      · rw [min_eq_right h2, pow_succ, ← mul_assoc, min_eq_right h2]
    · rw [min_eq_right h]
      have hm0 : 0 ≤ maxDelay := le_trans h0 hle
      rw [min_eq_right (by linarith : maxDelay ≤ maxDelay * 2)]
      have hp : maxDelay ≤ initialDelay * 2 ^ (n + 1) := by
        rw [pow_succ, ← mul_assoc]
        nlinarith [pow_nonneg (by norm_num : (0:ℚ) ≤ 2) n]
      rw [min_eq_right hp]

/-- **C8 counterexample.** The claim is false for `retry_with_backoff`
(src/utils.py): with `initial_delay = 1` and `max_delay = 10` the sleep
before the third attempt lasts `min(1 * 2, 10) = 2` seconds, which is not
`baseDelay * (1 + j)` for any jitter `j` in `[0, 1)` — the delays of
`retry_with_backoff` are deterministic, unjittered exponential backoff. -/
theorem utils_backoff_has_no_jitter :
    utilsSleepDelay 1 10 1 = 2 ∧
    ¬ ∃ j : ℚ, 0 ≤ j ∧ j < 1 ∧ utilsSleepDelay 1 10 1 = 1 * (1 + j) := by
  have h2 : utilsSleepDelay 1 10 1 = 2 := by
    rw [utilsSleepDelay, utilsSleepDelay]
    norm_num
  refine ⟨h2, ?_⟩
  rintro ⟨j, hj0, hj1, hj2⟩
  rw [h2] at hj2
  linarith

/-- **C8 (amended).** Only the retry loop of
`ReportGenerator.generate_content` jitters its sleeps: with `retry_delay`
positive and `jitter k` drawn from `[0, 1)`, its `k`-th sleep lasts
`retry_delay * (1 + jitter k)` seconds, which lies in
`[retry_delay, 2 * retry_delay)`.  `retry_with_backoff` in src/utils.py
instead sleeps the deterministic exponential-backoff delay
`min(initial_delay * 2 ^ k, max_delay)` before the `k+1`-st retry, with no
jitter. -/
theorem sleep_delay_characterization (retryDelay : ℚ) (jitter : Nat → ℚ)
    (k : Nat) (hrd : 0 < retryDelay) (hj0 : 0 ≤ jitter k)
    (hj1 : jitter k < 1) :
    (appSleepDelay retryDelay jitter k = retryDelay * (1 + jitter k) ∧
     retryDelay ≤ appSleepDelay retryDelay jitter k ∧
     appSleepDelay retryDelay jitter k < 2 * retryDelay) ∧
    (∀ initialDelay maxDelay : ℚ, 0 ≤ initialDelay →
      initialDelay ≤ maxDelay →
      utilsSleepDelay initialDelay maxDelay k =
        min (initialDelay * 2 ^ k) maxDelay) := by
  refine ⟨⟨rfl, ?_, ?_⟩, fun i m h0 hle => utilsSleepDelay_closed_form i m h0 hle k⟩
  · unfold appSleepDelay
    nlinarith
  · unfold appSleepDelay
    nlinarith

/-- Witness for C8 (amended): at `retry_delay = 1` and jitter constantly
`1/2`, the jittered sleep lies in `[1, 2)`. -/
theorem sleep_delay_characterization_witness :
    1 ≤ appSleepDelay 1 (fun _ => 1/2) 0 ∧
    appSleepDelay 1 (fun _ => 1/2) 0 < 2 := by
  have h := (sleep_delay_characterization 1 (fun _ => 1/2) 0 (by norm_num)
    (by norm_num) (by norm_num)).1
  refine ⟨?_, ?_⟩
  · have := h.2.1; linarith
  · have := h.2.2; linarith

/-! ## Text utilities (Python string semantics) -/

/-- Python whitespace as used by `str.strip()`. -/
def pyIsSpace (c : Char) : Bool :=
  c == ' ' || c == '\t' || c == '\n' || c == '\r' || c == '\x0b' || c == '\x0c'

/-- Python `str.strip()` on a character list. -/
def pyStripL (l : List Char) : List Char :=
  ((l.dropWhile pyIsSpace).reverse.dropWhile pyIsSpace).reverse

/-- Python `str.strip()`. -/
def pyStrip (s : String) : String := String.mk (pyStripL s.data)

/-- Replace the first occurrence of `needle` (nonempty) in the scanned list;
the Bool reports whether a replacement happened. -/
def subFirstAux (needle repl : List Char) : List Char → List Char × Bool
  | [] => ([], false)
  | c :: rest =>
    if needle.isPrefixOf (c :: rest) then
      (repl ++ (c :: rest).drop needle.length, true)
    else
      let r := subFirstAux needle repl rest
      (c :: r.1, r.2)

/-- `re.sub(re.escape(needle), repl, s, count=1)`: replace the first literal
occurrence of `needle` in `s` (an empty pattern matches at position 0, so
`repl` is prepended); the Bool reports whether a substitution happened. -/
def subFirst (needle repl s : List Char) : List Char × Bool :=
  if needle.isEmpty then (repl ++ s, true) else subFirstAux needle repl s

/-! ## Citation rewriting from grounding metadata

src/main.py `generate_section_content` lines 509-557 and
src/report_generator/section_generator.py `generate_section_content`
lines 184-218 rewrite the generated text with superscript citation markers
and build the section's reference entries.  Grounding metadata is modelled
by its two lists; `None` metadata corresponds to both lists empty. -/

/-- `chunk.web`: URI and domain of a grounding source. -/
structure WebSource where
  uri : String
  domain : String
deriving Repr, DecidableEq

/-- One grounding chunk; `web` may be absent. -/
structure GroundingChunk where
  web : Option WebSource
deriving Repr, DecidableEq

/-- One grounding support: `support.segment.text` and
`support.grounding_chunk_indices` (`None` modelled as `[]`, matching
`support.grounding_chunk_indices or []`). -/
structure GroundingSupport where
  segmentText : String
  chunkIndices : List Nat
deriving Repr, DecidableEq

/-- The comparison of
`sorted(grounding_supports, key=lambda s: len(s.segment.text), reverse=True)`. -/
def supLe (a b : GroundingSupport) : Bool :=
  b.segmentText.length ≤ a.segmentText.length

/-- `sorted(grounding_supports, key=lambda s: len(s.segment.text),
reverse=True)` (src/main.py line 515, section_generator.py line 191):
stable sort, longest matched text first. -/
def sortSupports (supports : List GroundingSupport) : List GroundingSupport :=
  supports.mergeSort supLe

/-- The superscript citation marker
`<sup><a href="#ref-section-{n}-{i+1}">[{n}.{i+1}]</a></sup>`
(src/main.py line 530, section_generator.py line 200). -/
def citationMarker (sectionNumber idx1 : Nat) : String :=
  "<sup><a href=\"#ref-section-" ++ toString sectionNumber ++ "-" ++
    toString idx1 ++ "\">[" ++ toString sectionNumber ++ "." ++
    toString idx1 ++ "]</a></sup>"

/-- One `reference-item` div with anchor id `ref-section-{n}-{idx+1}`
(src/main.py lines 547-553, section_generator.py lines 211-216). -/
def referenceEntry (sectionNumber idx1 : Nat) (chunk : GroundingChunk) :
    String :=
  match chunk.web with
  | some w =>
    "<div class=\"reference-item\" id=\"ref-section-" ++
      toString sectionNumber ++ "-" ++ toString idx1 ++ "\">" ++
      toString idx1 ++ ". <a href=\"" ++ w.uri ++ "\">" ++ w.domain ++
      "</a></div>"
  | none =>
    "<div class=\"reference-item\" id=\"ref-section-" ++
      toString sectionNumber ++ "-" ++ toString idx1 ++ "\">" ++
      toString idx1 ++ ". No web metadata available.</div>"

/-- The whole references block appended for one section
(src/main.py lines 544-556). -/
def sectionReferencesBlock (sectionNumber : Nat) (sectionTitle : String)
    (chunks : List GroundingChunk) : String :=
  "\n\n" ++ "#### " ++ sectionTitle ++ " \n\n" ++
    "<div class=\"references-grid\">\n" ++
    String.join (chunks.enum.map
      (fun p => referenceEntry sectionNumber (p.1 + 1) p.2 ++ "\n")) ++
    "</div>\n" ++ "\n---\n\n"

/-- The references block of section_generator.py lines 210-217: the
opening div uses single quotes (`<div class='references-grid'>`) and the
block ends with `</div>\n---\n\n`, without the extra blank line of the
src/main.py variant. -/
def sectionReferencesBlockSG (sectionNumber : Nat) (sectionTitle : String)
    (chunks : List GroundingChunk) : String :=
  "\n\n#### " ++ sectionTitle ++ " \n\n<div class='references-grid'>\n" ++
    String.join (chunks.enum.map
      (fun p => referenceEntry sectionNumber (p.1 + 1) p.2 ++ "\n")) ++
    "</div>\n---\n\n"

/-- Running state of the per-support substitution loop: the current text and
the `(sectionNumber, localIndex)` pairs of the markers actually inserted so
far (a marker is inserted only when `re.sub` found the segment text). -/
structure RewriteState where
  text : List Char
  insertedMarkers : List (Nat × Nat)
deriving Repr, DecidableEq

/-- One iteration of the support loop in src/main.py lines 517-541:
skip supports with no chunk indices; build one marker per index `i`
(indices with `i ≥ len(grounding_chunks)` raise `IndexError` at
`grounding_chunks[i]` and are skipped); skip if no marker was built;
replace the first occurrence of the stripped segment text by itself
followed by the concatenated markers. -/
def applySupport (sectionNumber numChunks : Nat) (st : RewriteState)
    (support : GroundingSupport) : RewriteState :=
  let segment := pyStripL support.segmentText.data
  if support.chunkIndices.isEmpty then st
  else
    let valid := support.chunkIndices.filter (fun i => i < numChunks)
    if valid.isEmpty then st
    else
      let superscript :=
        String.join (valid.map (fun i => citationMarker sectionNumber (i + 1)))
      let replacement := segment ++ superscript.data
      let r := subFirst segment replacement st.text
      { text := r.1,
        insertedMarkers :=
          if r.2 then
            st.insertedMarkers ++ valid.map (fun i => (sectionNumber, i + 1))
          else st.insertedMarkers }

/-- One iteration of the support loop in section_generator.py lines
192-208: same as `applySupport`, except that the marker f-string does not
index `grounding_chunks`, so no index is ever skipped. -/
def applySupportSG (sectionNumber : Nat) (st : RewriteState)
    (support : GroundingSupport) : RewriteState :=
  let segment := pyStripL support.segmentText.data
  if support.chunkIndices.isEmpty then st
  else
    let links :=
      support.chunkIndices.map (fun i => citationMarker sectionNumber (i + 1))
    let replacement := segment ++ (String.join links).data
    let r := subFirst segment replacement st.text
    { text := r.1,
      insertedMarkers :=
        if r.2 then
          st.insertedMarkers ++
            support.chunkIndices.map (fun i => (sectionNumber, i + 1))
        else st.insertedMarkers }

/-- Result of the grounding block: final text, the appended
`report_references` blocks, the `(section, localIndex)` pairs of inserted
markers, and the `(section, localIndex)` pairs of the emitted
reference-entry anchors. -/
structure RewriteResult where
  text : String
  references : List String
  insertedMarkers : List (Nat × Nat)
  entryIds : List (Nat × Nat)
deriving Repr, DecidableEq

/-- The grounding block of src/main.py `generate_section_content`
(lines 509-557): when supports and chunks are both present, substitute the
sorted supports into the text and emit one reference entry per grounding
chunk; otherwise leave the text unchanged and emit nothing. -/
def groundingRewrite (sectionNumber : Nat) (sectionTitle text : String)
    (supports : List GroundingSupport) (chunks : List GroundingChunk) :
    RewriteResult :=
  if supports.isEmpty || chunks.isEmpty then
    { text := text, references := [], insertedMarkers := [], entryIds := [] }
  else
    let st := (sortSupports supports).foldl
      (applySupport sectionNumber chunks.length) ⟨text.data, []⟩
    { text := String.mk st.text,
      references := [sectionReferencesBlock sectionNumber sectionTitle chunks],
      insertedMarkers := st.insertedMarkers,
      entryIds := (List.range chunks.length).map
        (fun i => (sectionNumber, i + 1)) }

/-- The grounding block of section_generator.py `generate_section_content`
(lines 184-218), using `applySupportSG`. -/
def groundingRewriteSG (sectionNumber : Nat) (sectionTitle text : String)
    (supports : List GroundingSupport) (chunks : List GroundingChunk) :
    RewriteResult :=
  if supports.isEmpty || chunks.isEmpty then
    { text := text, references := [], insertedMarkers := [], entryIds := [] }
  else
    let st := (sortSupports supports).foldl
      (applySupportSG sectionNumber) ⟨text.data, []⟩
    { text := String.mk st.text,
      references :=
        [sectionReferencesBlockSG sectionNumber sectionTitle chunks],
      insertedMarkers := st.insertedMarkers,
      entryIds := (List.range chunks.length).map
        (fun i => (sectionNumber, i + 1)) }

theorem applySupport_insertedMarkers_subset (sectionNumber numChunks : Nat)
    (st : RewriteState) (support : GroundingSupport) (q : Nat × Nat)
    (hq : q ∈ (applySupport sectionNumber numChunks st
      support).insertedMarkers) :
    q ∈ st.insertedMarkers ∨
      ∃ i, i < numChunks ∧ q = (sectionNumber, i + 1) := by
  simp only [applySupport] at hq
  split at hq
  · exact Or.inl hq
  · split at hq
    · exact Or.inl hq
    · split at hq
      · rcases List.mem_append.mp hq with h | h
        · exact Or.inl h
        · right
          rcases List.mem_map.mp h with ⟨i, hi, rfl⟩
          refine ⟨i, ?_, rfl⟩
          have hmem := List.mem_filter.mp hi
          simpa using hmem.2
      · exact Or.inl hq

theorem foldl_applySupport_insertedMarkers (sectionNumber numChunks : Nat) :
    ∀ (sups : List GroundingSupport) (st : RewriteState) (q : Nat × Nat),
      q ∈ (sups.foldl (applySupport sectionNumber numChunks)
        st).insertedMarkers →
      q ∈ st.insertedMarkers ∨
        ∃ i, i < numChunks ∧ q = (sectionNumber, i + 1) := by
  intro sups
  induction sups with
  | nil => intro st q hq; exact Or.inl hq
  | cons s rest ih =>
    intro st q hq
    rcases ih (applySupport sectionNumber numChunks st s) q hq with h | h
    · exact applySupport_insertedMarkers_subset _ _ _ _ _ h
    · exact Or.inr h

/-- **C3 counterexample.** The claim is false: with two grounding chunks but
a single support citing only the first, the rewriting of src/main.py emits
a reference entry for the second chunk (anchor `ref-section-1-2`) although
no marker `[1.2]` was inserted into the text — an orphan entry, so the
marker/entry correspondence is not exact in both directions. -/
theorem citation_orphan_reference_entry :
    ((1, 2) ∈ (groundingRewrite 1 "T" "A fact here." [⟨"A fact", [0]⟩]
        [⟨some ⟨"https://a.example", "a.example"⟩⟩,
         ⟨some ⟨"https://b.example", "b.example"⟩⟩]).entryIds) ∧
    ((1, 2) ∉ (groundingRewrite 1 "T" "A fact here." [⟨"A fact", [0]⟩]
        [⟨some ⟨"https://a.example", "a.example"⟩⟩,
         ⟨some ⟨"https://b.example", "b.example"⟩⟩]).insertedMarkers) := by
  have hs : sortSupports [⟨"A fact", [0]⟩] = [⟨"A fact", [0]⟩] := by
    simp [sortSupports]
  constructor
  · simp only [groundingRewrite, hs]
    decide
  · simp only [groundingRewrite, hs]
    decide

/-- **C3 (amended).** The exact two-way marker/entry correspondence fails,
differently in the two cited sources.  In src/main.py one direction
holds: every citation marker `[n.j]` inserted into the section text has a
matching reference entry with anchor `ref-section-n-j` (that variant
builds markers only for chunk indices below `len(grounding_chunks)`, and
one entry is emitted per chunk); the converse fails there, since entries
are emitted for every grounding chunk, cited or not — orphan entries (see
the counterexample).  In section_generator.py neither direction holds:
besides the same orphan entries (third conjunct), its marker f-string
(lines 197-202) never indexes `grounding_chunks`, so a support citing an
out-of-range chunk index inserts a dangling marker with no matching entry
— the second conjunct exhibits a support citing index 2 of a single-chunk
list, yielding marker `[1.3]` with no `ref-section-1-3` entry. -/
theorem citation_markers_have_entries :
    (∀ (sectionNumber : Nat) (sectionTitle text : String)
      (supports : List GroundingSupport) (chunks : List GroundingChunk)
      (p : Nat × Nat),
      p ∈ (groundingRewrite sectionNumber sectionTitle text supports
        chunks).insertedMarkers →
      p ∈ (groundingRewrite sectionNumber sectionTitle text supports
        chunks).entryIds) ∧
    ((1, 3) ∈ (groundingRewriteSG 1 "T" "A fact here." [⟨"A fact", [2]⟩]
      [⟨some ⟨"https://a.example", "a.example"⟩⟩]).insertedMarkers ∧
     (1, 3) ∉ (groundingRewriteSG 1 "T" "A fact here." [⟨"A fact", [2]⟩]
      [⟨some ⟨"https://a.example", "a.example"⟩⟩]).entryIds) ∧
    ((1, 2) ∈ (groundingRewriteSG 1 "T" "A fact here." [⟨"A fact", [0]⟩]
      [⟨some ⟨"https://a.example", "a.example"⟩⟩,
       ⟨some ⟨"https://b.example", "b.example"⟩⟩]).entryIds ∧
     (1, 2) ∉ (groundingRewriteSG 1 "T" "A fact here." [⟨"A fact", [0]⟩]
      [⟨some ⟨"https://a.example", "a.example"⟩⟩,
       ⟨some ⟨"https://b.example", "b.example"⟩⟩]).insertedMarkers) := by
  refine ⟨?_, ?_, ?_⟩
  · intro sectionNumber sectionTitle text supports chunks p hp
    by_cases hc : supports.isEmpty || chunks.isEmpty
    · simp only [groundingRewrite, if_pos hc] at hp
      simp at hp
    · simp only [groundingRewrite, if_neg hc] at hp ⊢
      rcases foldl_applySupport_insertedMarkers _ _ _ _ _ hp with h | h
      · simp at h
      · rcases h with ⟨i, hi, rfl⟩
        simp only [List.mem_map]
        exact ⟨i, List.mem_range.mpr hi, rfl⟩
  · have hs : sortSupports [⟨"A fact", [2]⟩] = [⟨"A fact", [2]⟩] := by
      simp [sortSupports]
    constructor
    · simp only [groundingRewriteSG, hs]
      decide
    · simp only [groundingRewriteSG, hs]
      decide
  · have hs : sortSupports [⟨"A fact", [0]⟩] = [⟨"A fact", [0]⟩] := by
      simp [sortSupports]
    constructor
    · simp only [groundingRewriteSG, hs]
      decide
    · simp only [groundingRewriteSG, hs]
      decide

/-- Witness for C3 (amended): the marker `[1.1]` inserted in a concrete
rewrite of src/main.py has its matching reference entry. -/
theorem citation_markers_have_entries_witness :
    (1, 1) ∈ (groundingRewrite 1 "T" "A fact. A fact." [⟨"A fact.", [0]⟩]
      [⟨some ⟨"https://x.example", "x.example"⟩⟩]).entryIds := by
  apply citation_markers_have_entries.1
  have hs : sortSupports [⟨"A fact.", [0]⟩] = [⟨"A fact.", [0]⟩] := by
    simp [sortSupports]
  simp only [groundingRewrite, hs]
  decide

/-- **C4.** Grounding segments are processed in descending order of
matched-text length (`sortSupports` is a permutation of the supports,
pairwise ordered by decreasing `len(segment.text)`), and each replacement
substitutes only the first literal occurrence: on `"A fact. A fact."` with
one segment `"A fact."` citing one source, exactly the first of the two
identical occurrences receives a marker, in both src/main.py and
section_generator.py. -/
theorem citation_rewrite_order_and_single_substitution :
    (∀ supports : List GroundingSupport,
      List.Pairwise
        (fun a b => b.segmentText.length ≤ a.segmentText.length)
        (sortSupports supports) ∧
      (sortSupports supports).Perm supports) ∧
    (groundingRewrite 1 "T" "A fact. A fact." [⟨"A fact.", [0]⟩]
        [⟨some ⟨"https://x.example", "x.example"⟩⟩]).text =
      "A fact.<sup><a href=\"#ref-section-1-1\">[1.1]</a></sup> A fact." ∧
    (groundingRewriteSG 1 "T" "A fact. A fact." [⟨"A fact.", [0]⟩]
        [⟨some ⟨"https://x.example", "x.example"⟩⟩]).text =
      "A fact.<sup><a href=\"#ref-section-1-1\">[1.1]</a></sup> A fact." := by
  refine ⟨fun supports => ⟨?_, List.mergeSort_perm supports supLe⟩, ?_, ?_⟩
  · have h := @List.sorted_mergeSort _ supLe
      (fun a b c hab hbc => by
        simp only [supLe, decide_eq_true_eq] at hab hbc ⊢
        omega)
      (fun a b => by
        simp only [supLe, Bool.or_eq_true, decide_eq_true_eq]
        omega)
      supports
    exact h.imp (fun hab => by
      simpa [supLe, decide_eq_true_eq] using hab)
  · have hs : sortSupports [⟨"A fact.", [0]⟩] = [⟨"A fact.", [0]⟩] := by
      simp [sortSupports]
    simp only [groundingRewrite, hs]
    decide
  · have hs : sortSupports [⟨"A fact.", [0]⟩] = [⟨"A fact.", [0]⟩] := by
      simp [sortSupports]
    simp only [groundingRewriteSG, hs]
    decide

/-- **C5.** With no grounding segments or no grounding sources (metadata
absent, or either list empty), citation rewriting is the identity on the
text and yields an empty reference list (and no markers and no entries),
in both src/main.py and section_generator.py; the case is handled by a
plain branch, not an error. -/
theorem rewrite_empty_grounding_identity (sectionNumber : Nat)
    (sectionTitle text : String) (supports : List GroundingSupport)
    (chunks : List GroundingChunk) :
    groundingRewrite sectionNumber sectionTitle text supports [] =
      ⟨text, [], [], []⟩ ∧
    groundingRewrite sectionNumber sectionTitle text [] chunks =
      ⟨text, [], [], []⟩ ∧
    groundingRewriteSG sectionNumber sectionTitle text supports [] =
      ⟨text, [], [], []⟩ ∧
    groundingRewriteSG sectionNumber sectionTitle text [] chunks =
      ⟨text, [], [], []⟩ := by
  refine ⟨?_, ?_, ?_, ?_⟩ <;> simp [groundingRewrite, groundingRewriteSG]

/-! ## TOC parsing

src/main1.py `parse_table_of_contents` (lines 224-242) raises
`ValueError` unless the extraction text splits on `SECTIONS:` into exactly
two parts.  src/app.py `ReportGenerator.extract_sections_from_toc`
(lines 750-795) performs the same parse on the extraction response inside
a `try`, and on any error falls back to
`re.findall(r'[IVX]+\.\s+(.*?)(?=\n[IVX]+\.|\Z)', toc, re.DOTALL)`
applied to the original TOC text. -/

/-- Python `str.split(sep)` with nonempty separator `s0 :: srest`:
left-to-right, non-overlapping.  The fuel argument only makes the
recursion structural; it is always called with fuel at least the scanned
length, so the exhaustion branch is unreachable. -/
def pySplitGo (s0 : Char) (srest : List Char) :
    Nat → List Char → List Char → List (List Char)
  | _, acc, [] => [acc.reverse]
  | 0, acc, l => [acc.reverse ++ l]
  | fuel + 1, acc, c :: rest =>
    if (s0 :: srest).isPrefixOf (c :: rest) then
      acc.reverse :: pySplitGo s0 srest fuel [] (rest.drop srest.length)
    else pySplitGo s0 srest fuel (c :: acc) rest

/-- Python `str.split(sep)` (an empty separator raises in Python and is
never used by the embedded code). -/
def pySplit (sep s : String) : List String :=
  match sep.data with
  | [] => [s]
  | s0 :: srest =>
    (pySplitGo s0 srest s.data.length [] s.data).map String.mk

/-- Python `str.startswith`. -/
def pyStartsWith (pre s : String) : Bool := pre.data.isPrefixOf s.data

/-- Python `s[n:]`. -/
def pyDrop (n : Nat) (s : String) : String := String.mk (s.data.drop n)

/-- The default title used by both parsers. -/
def defaultReportTitle : String := "Premium Credit Card Market Analysis Report"

/-- `parse_table_of_contents` from src/main1.py lines 224-242: split on
`SECTIONS:`; unless there are exactly two parts, raise
`ValueError("Invalid response format")`; the title comes from a `TITLE:`
prefix of the stripped first part (or the default); the sections are the
stripped nonempty lines of the second part. -/
def parse_table_of_contents (extractedTocText : String) :
    Except String (String × List String) :=
  match pySplit "SECTIONS:" extractedTocText with
  | [p0, p1] =>
    let titleLine := pyStrip p0
    let title :=
      if pyStartsWith "TITLE:" titleLine then pyStrip (pyDrop 6 titleLine)
      else defaultReportTitle
    .ok (title, ((pySplit "\n" p1).map pyStrip).filter (fun l => l ≠ ""))
  | _ => .error "Invalid response format"

/-- The regex class `[IVX]`. -/
def isIVX (c : Char) : Bool := c == 'I' || c == 'V' || c == 'X'

/-- Does the list start with a match of `[IVX]+\.`? -/
def ivxPlusDot : List Char → Bool
  | c :: d :: rest => isIVX c && (d == '.' || ivxPlusDot (d :: rest))
  | _ => false

/-- Lazy capture of `(.*?)(?=\n[IVX]+\.|\Z)` under `re.DOTALL`: consume
characters until the lookahead `\n[IVX]+\.` succeeds or the input ends;
returns the captured text and the remaining input (the lookahead consumes
nothing, so the match ends where it begins). -/
def captureUntil : List Char → List Char × List Char
  | [] => ([], [])
  | c :: rest =>
    if c == '\n' && ivxPlusDot rest then ([], c :: rest)
    else
      let r := captureUntil rest
      (c :: r.1, r.2)

/-- Match `[IVX]+\.\s+(.*?)(?=\n[IVX]+\.|\Z)` at the head of the list.
The `[IVX]+` run is maximal (backtracking to a shorter run cannot succeed:
the character after a shorter run is in `[IVX]`, never `.`), as is the
`\s+` run (the lazy tail always matches, `\Z` being an alternative of the
lookahead).  Returns the capture group and the rest of the input. -/
def romanMatch (l : List Char) : Option (List Char × List Char) :=
  let run := l.takeWhile isIVX
  if run.isEmpty then none
  else
    match l.drop run.length with
    | [] => none
    | d :: rest1 =>
      if d = '.' then
        let ws := rest1.takeWhile pyIsSpace
        if ws.isEmpty then none
        else some (captureUntil (rest1.drop ws.length))
      else none

theorem captureUntil_rem_le (l : List Char) :
    (captureUntil l).2.length ≤ l.length := by
  induction l with
  | nil => simp [captureUntil]
  | cons c rest ih =>
    rw [captureUntil]
    split
    · simp
    · simpa using Nat.le_succ_of_le ih

theorem romanMatch_rem_lt (l cap rem : List Char)
    (h : romanMatch l = some (cap, rem)) : rem.length < l.length := by
  unfold romanMatch at h
  by_cases hrun : (l.takeWhile isIVX).isEmpty
  · rw [if_pos hrun] at h; exact absurd h (by simp)
  · rw [if_neg hrun] at h
    have hrunlen : 0 < (l.takeWhile isIVX).length := by
      cases hw : l.takeWhile isIVX with
      | nil => rw [hw] at hrun; simp at hrun
      | cons a b => simp [hw]
    have hrunle : (l.takeWhile isIVX).length ≤ l.length :=
      (List.takeWhile_sublist isIVX).length_le
    cases hd : l.drop (l.takeWhile isIVX).length with
    | nil => rw [hd] at h; exact absurd h (by simp)
    | cons d rest1 =>
      rw [hd] at h
      dsimp only at h
      by_cases hdot : d = '.'
      · rw [if_pos hdot] at h
        by_cases hws : (rest1.takeWhile pyIsSpace).isEmpty
        · rw [if_pos hws] at h; exact absurd h (by simp)
        · rw [if_neg hws] at h
          have hwslen : 0 < (rest1.takeWhile pyIsSpace).length := by
            cases hw : rest1.takeWhile pyIsSpace with
            | nil => rw [hw] at hws; simp at hws
            | cons a b => simp [hw]
          have hrem : rem =
              (captureUntil (rest1.drop
                (rest1.takeWhile pyIsSpace).length)).2 := by
            have hc := congrArg (fun o => o.map Prod.snd) h
            simpa using hc.symm
          have hle : rem.length ≤
              (rest1.drop (rest1.takeWhile pyIsSpace).length).length := by
            rw [hrem]; exact captureUntil_rem_le _
          have hdl : (l.drop (l.takeWhile isIVX).length).length =
              l.length - (l.takeWhile isIVX).length := l.length_drop _
          rw [hd] at hdl
          simp only [List.length_cons] at hdl
          have hdl2 : (rest1.drop
              (rest1.takeWhile pyIsSpace).length).length =
              rest1.length - (rest1.takeWhile pyIsSpace).length :=
            rest1.length_drop _
          omega
      · rw [if_neg hdot] at h
        exact absurd h (by simp)

/-- `re.findall` for the Roman-numeral pattern: scan left to right; on a
match, record the capture and resume at the end of the match; otherwise
advance one character.  The fuel (at least the scanned length on every
call) only makes the recursion structural. -/
def romanFindallGo : Nat → List Char → List (List Char)
  | _, [] => []
  | 0, _ :: _ => []
  | fuel + 1, c :: rest =>
    match romanMatch (c :: rest) with
    | some (cap, rem) => cap :: romanFindallGo fuel rem
    | none => romanFindallGo fuel rest

/-- `re.findall(r'[IVX]+\.\s+(.*?)(?=\n[IVX]+\.|\Z)', toc, re.DOTALL)`
(src/app.py line 794). -/
def romanFindall (l : List Char) : List (List Char) :=
  romanFindallGo l.length l

/-- Does some suffix of the text start with a match of the Roman-numeral
section pattern (i.e. does the text contain an `"I. Title"`-style line)? -/
def hasRomanLine : List Char → Bool
  | [] => false
  | c :: rest => (romanMatch (c :: rest)).isSome || hasRomanLine rest

theorem romanFindallGo_ne_nil :
    ∀ (fuel : Nat) (l : List Char), l.length ≤ fuel →
      hasRomanLine l = true → romanFindallGo fuel l ≠ [] := by
  intro fuel
  induction fuel with
  | zero =>
    intro l hl hr
    have hnil : l = [] := List.length_eq_zero.mp (Nat.le_zero.mp hl)
    subst hnil
    simp [hasRomanLine] at hr
  | succ fuel ih =>
    intro l hl hr
    cases l with
    | nil => simp [hasRomanLine] at hr
    | cons c rest =>
      rw [hasRomanLine] at hr
      cases hm : romanMatch (c :: rest) with
      | some p =>
        obtain ⟨cap, rem⟩ := p
        rw [romanFindallGo, hm]
        simp
      | none =>
        rw [romanFindallGo, hm]
        apply ih rest (by simp at hl; omega)
        rw [hm] at hr
        simpa using hr

theorem romanFindall_ne_nil (l : List Char) (h : hasRomanLine l = true) :
    romanFindall l ≠ [] :=
  romanFindallGo_ne_nil l.length l (Nat.le_refl _) h

/-- `ReportGenerator.extract_sections_from_toc` (src/app.py lines
750-795), with the extraction model's response given as `response`: the
`try` block splits the response on `SECTIONS:` and raises
`ValueError("Invalid response format")` unless there are exactly two
parts; the `except` block then returns the default title together with
the stripped captures of the Roman-numeral regex scan of `toc`. -/
def extract_sections_from_toc (response toc : String) :
    String × List String :=
  match pySplit "SECTIONS:" response with
  | [p0, p1] =>
    let titleLine := pyStrip p0
    let title :=
      if pyStartsWith "TITLE:" titleLine then pyStrip (pyDrop 6 titleLine)
      else defaultReportTitle
    (title, ((pySplit "\n" p1).map pyStrip).filter (fun l => l ≠ ""))
  | _ =>
    (defaultReportTitle,
      (romanFindall toc.data).map (fun cap => pyStrip (String.mk cap)))

/-- **C6 counterexample.** The claim is false for
`parse_table_of_contents` (src/main1.py lines 224-242): on extraction
text lacking `SECTIONS:` but containing Roman-numeral-prefixed lines it
raises `ValueError("Invalid response format")` — that function has no
regex fallback (and its caller `main` does not catch the error). -/
theorem parse_toc_without_marker_raises :
    parse_table_of_contents "I. Introduction\nII. Market Overview" =
      .error "Invalid response format" := by
  rfl

/-- **C6 (amended).** The regex fallback lives only in src/app.py's
`extract_sections_from_toc`: whenever the extraction response lacks
`SECTIONS:` (so the strict parse raises — `parse_table_of_contents` in
src/main1.py propagates this error) and the TOC contains at least one
Roman-numeral-prefixed line, `extract_sections_from_toc` returns the
default title `Premium Credit Card Market Analysis Report` together with
a non-empty section list obtained by the Roman-numeral regex scan. -/
theorem extract_sections_roman_fallback (response toc : String)
    (hresp : (pySplit "SECTIONS:" response).length = 1)
    (htoc : hasRomanLine toc.data = true) :
    parse_table_of_contents response = .error "Invalid response format" ∧
    (extract_sections_from_toc response toc).1 = defaultReportTitle ∧
    (extract_sections_from_toc response toc).2 ≠ [] := by
  obtain ⟨x, hx⟩ := List.length_eq_one.mp hresp
  refine ⟨?_, ?_, ?_⟩
  · simp only [parse_table_of_contents, hx]
  · simp only [extract_sections_from_toc, hx]
  · simp only [extract_sections_from_toc, hx]
    intro hcontra
    exact romanFindall_ne_nil toc.data htoc
      (List.map_eq_nil_iff.mp hcontra)

/-- Witness for C6 (amended): a concrete response without `SECTIONS:` and
a concrete TOC with two Roman-numeral lines. -/
theorem extract_sections_roman_fallback_witness :
    parse_table_of_contents "no marker here" =
      .error "Invalid response format" ∧
    (extract_sections_from_toc "no marker here"
      "I. Introduction\nII. Market Overview").1 = defaultReportTitle ∧
    (extract_sections_from_toc "no marker here"
      "I. Introduction\nII. Market Overview").2 ≠ [] :=
  extract_sections_roman_fallback "no marker here"
    "I. Introduction\nII. Market Overview" (by decide) (by decide)

/-! ## Per-section orchestration

`ReportGenerator.process_report` (src/app.py lines 669-743) generates each
section inside a `try`: a failure of `generate_section_content` (after
retry exhaustion) is caught and an error-placeholder section is appended;
polishing is skipped for the last section and for titles matching the skip
list, and a polishing failure falls back to the unpolished content.  The
module-level loop of src/main.py (lines 642-646) and the loop of `main`
in src/main1.py (lines 415-434) have no such handling: generation and
polishing are retry-decorated and re-raise, aborting the run; both loops
polish every successfully generated section unconditionally. -/

/-- `SKIP_PARAPHRASING_SECTIONS` (src/app.py line 33). -/
def SKIP_PARAPHRASING_SECTIONS : List String :=
  ["appendix", "appendices", "references"]

/-- Python `str.lower()` (ASCII, as needed for the skip terms). -/
def pyLower (s : String) : String := String.mk (s.data.map Char.toLower)

/-- `ReportSection` (src/app.py). -/
structure ReportSection where
  title : String
  content : String
deriving Repr, DecidableEq

/-- The outer `try`/`except` of `generate_section_content` (src/app.py
lines 436 and 593-595): every exception raised inside the function —
including the re-raise of `generate_content` after retry exhaustion — is
caught, and the function returns the visible placeholder
`## {title}\n\n*Error generating content: {e}*` instead of raising.
Consequently the `except` handler of `process_report` (lines 737-743,
which would append `*Error processing section: {e}*`) never fires on
retry exhaustion. -/
def generate_section_content_result (title : String)
    (body : Except String String) : String :=
  match body with
  | .ok content => content
  | .error e =>
    "## " ++ title ++ "\n\n*Error generating content: " ++ e ++ "*"

/-- Python `needle in hay` (contiguous substring containment). -/
def pyContainsSub (needle : List Char) : List Char → Bool
  | [] => needle.isEmpty
  | c :: rest => needle.isPrefixOf (c :: rest) || pyContainsSub needle rest

/-- The polish-skip condition of src/app.py lines 691-693:
`any(skip_section in section_lower for skip_section in
SKIP_PARAPHRASING_SECTIONS) or is_last_section`. -/
def skipPolish (title : String) (isLast : Bool) : Bool :=
  SKIP_PARAPHRASING_SECTIONS.any
    (fun sk => pyContainsSub sk.data (pyLower title).data) || isLast

/-- The per-section loop of `ReportGenerator.process_report`
(src/app.py lines 669-743).  `gen i` is the outcome of the body of
`generate_section_content` for the 1-based section `i`: an `.error` is
caught inside that function, which returns the error placeholder (see
`generate_section_content_result`), so the section always has content,
the loop's own `except` handler (lines 737-743) never fires on retry
exhaustion, and a non-skipped section — error placeholder or not — is
passed to polishing.  `polish i` is the outcome of the polishing call
(`generate_content` of the polish prompt followed by
`extract_content_between_markers`).  Returns the `processed_sections`
list and the 1-based indices of the sections passed to the polishing
step (whether or not polishing succeeded). -/
def processGo (gen polish : Nat → Except String String) (total : Nat) :
    Nat → List String → List ReportSection × List Nat
  | _, [] => ([], [])
  | idx, title :: rest =>
    let tail := processGo gen polish total (idx + 1) rest
    let content := generate_section_content_result title (gen idx)
    if skipPolish title (idx == total) then
      (⟨title, content⟩ :: tail.1, tail.2)
    else
      match polish idx with
      | .ok polished => (⟨title, polished⟩ :: tail.1, idx :: tail.2)
      | .error _ => (⟨title, content⟩ :: tail.1, idx :: tail.2)

/-- `ReportGenerator.process_report` on the extracted section titles. -/
def process_report (titles : List String)
    (gen polish : Nat → Except String String) :
    List ReportSection × List Nat :=
  processGo gen polish titles.length 1 titles

/-- The loop body of `process_report` factored out: the `ReportSection`
appended for the 1-based section `idx`. -/
def sectionResult (gen polish : Nat → Except String String)
    (total idx : Nat) (title : String) : ReportSection :=
  let content := generate_section_content_result title (gen idx)
  if skipPolish title (idx == total) then ⟨title, content⟩
  else
    match polish idx with
    | .ok polished => ⟨title, polished⟩
    | .error _ => ⟨title, content⟩

theorem processGo_fst_cons (gen polish : Nat → Except String String)
    (total idx : Nat) (t : String) (rest : List String) :
    (processGo gen polish total idx (t :: rest)).1 =
      sectionResult gen polish total idx t ::
        (processGo gen polish total (idx + 1) rest).1 := by
  rw [processGo]
  unfold sectionResult
  by_cases hs : skipPolish t (idx == total) = true
  · rw [if_pos hs, if_pos hs]
  · rw [if_neg hs, if_neg hs]
    cases polish idx <;> rfl

theorem sectionResult_title (gen polish : Nat → Except String String)
    (total idx : Nat) (t : String) :
    (sectionResult gen polish total idx t).title = t := by
  unfold sectionResult
  by_cases hs : skipPolish t (idx == total) = true
  · rw [if_pos hs]
  · rw [if_neg hs]
    cases polish idx <;> rfl

/-- The module-level section loop of src/main.py lines 642-646: no error
handling — a failure of the retry-decorated `generate_section_content` or
`polish_content` propagates and aborts the run; on success the polished
contents are concatenated into `section_content`. -/
def mainSectionLoop (gen polish : Nat → Except String String) :
    Nat → List String → Except String String
  | _, [] => .ok ""
  | idx, _ :: rest =>
    match gen idx with
    | .error e => .error e
    | .ok _ =>
      match polish idx with
      | .error e => .error e
      | .ok p =>
        match mainSectionLoop gen polish (idx + 1) rest with
        | .error e => .error e
        | .ok s => .ok (p ++ "\n\n" ++ s)

/-- `sections_to_generate = [sections[1]] if demo_mode else sections`
(src/main1.py line 417; with fewer than two sections the demo branch
raises `IndexError` in Python). -/
def main1SectionsToGenerate (demoMode : Bool) (sections : List String) :
    List String :=
  if demoMode then
    match sections with
    | _ :: s1 :: _ => [s1]
    | _ => []
  else sections

/-- The section loop of `main` (src/main1.py lines 418-434): every
successfully generated section is passed to `polish_content`
unconditionally; generation and polish failures propagate (the retry
decorators re-raise) and abort the run.  On success, returns the polished
contents together with the `(sectionNumber, title)` pairs passed to
polishing. -/
def main1SectionLoop (gen polish : Nat → Except String String) :
    Nat → List String → Except String (List String × List (Nat × String))
  | _, [] => .ok ([], [])
  | idx, title :: rest =>
    match gen idx with
    | .error e => .error e
    | .ok _ =>
      match polish idx with
      | .error e => .error e
      | .ok p =>
        match main1SectionLoop gen polish (idx + 1) rest with
        | .error e => .error e
        | .ok r => .ok (p :: r.1, (idx, title) :: r.2)

/-- `_generate_markdown_content`, one block per section (src/app.py lines
844-864): the stripped first line of the content is the heading; if it
starts with `#`, the remaining lines (joined, stripped) form the body,
otherwise the full content is kept below the stripped first line. -/
def sectionBlock (s : ReportSection) : String :=
  let ls := pySplit "\n" s.content
  let t0 := pyStrip (ls.headD "")
  if pyStartsWith "#" t0 then
    t0 ++ "\n\n" ++ pyStrip (String.intercalate "\n" (ls.drop 1)) ++
      "\n\n---\n\n"
  else
    t0 ++ "\n\n" ++ s.content ++ "\n\n---\n\n"

/-- `_generate_markdown_content` (src/app.py lines 844-864). -/
def generateMarkdownContent (reportTitle : String)
    (report : List ReportSection) : String :=
  "# " ++ reportTitle ++ "\n\n[TOC]\n\n" ++
    String.join (report.map sectionBlock)

/-- Generation outcomes where only section 2 fails. -/
def genFailsSecond : Nat → Except String String :=
  fun i => if i == 2 then .error "boom" else .ok "generated"

/-- Polishing outcomes that always succeed. -/
def polishOk : Nat → Except String String := fun _ => .ok "polished"

/-- Polishing outcomes that always fail (falling back to the unpolished
content in `process_report`). -/
def polishFails : Nat → Except String String :=
  fun _ => .error "polish failed"

/-- **C2 counterexample.** The claim is false for the module-level section
loop of src/main.py (lines 642-646, a cited source of the claim): with
three sections of which generation of section 2 fails after retry
exhaustion, the loop has no error handling, the error propagates and the
run aborts — no section list is produced, no placeholder is recorded and
no document containing sections 1 and 3 is assembled. -/
theorem main_section_loop_aborts :
    mainSectionLoop genFailsSecond polishOk 1 ["S1", "S2", "S3"] =
      .error "boom" := by
  rfl

/-- **C2 (amended).** In src/app.py, retry exhaustion during section
generation is caught inside `generate_section_content` itself (lines
593-595), which returns the visible placeholder
`## {title}\n\n*Error generating content: {e}*` as the section's
content; `process_report` never sees an exception, so its own
`*Error processing section*` handler (lines 737-743) stays unreachable on
retry exhaustion, and the failed section — like any non-skipped, non-last
section — is still passed to the polishing step.  Processing continues:
with three sections of which only section 2's generation fails, the
processed-section list keeps all three titles in TOC order, section 3
(the last, never polished) keeps its generated content, section 1 keeps
its normal content (generated, or polished when polishing succeeded), and
section 2's slot holds the generation-error placeholder verbatim whenever
its title is skip-listed or polishing fails, and the polishing output
otherwise.  The final conjunct assembles such a run (placeholder
surviving) into the markdown document, with both healthy bodies around
the visible error marker.  In the module-level loop of src/main.py the
same failure instead aborts the whole run (see the counterexample). -/
theorem process_report_failure_isolation
    (t1 t2 t3 c1 c3 e : String) (gen polish : Nat → Except String String)
    (h1 : gen 1 = .ok c1) (h2 : gen 2 = .error e) (h3 : gen 3 = .ok c3) :
    ((process_report [t1, t2, t3] gen polish).1.map ReportSection.title =
      [t1, t2, t3] ∧
     (process_report [t1, t2, t3] gen polish).1.get? 2 = some ⟨t3, c3⟩ ∧
     (skipPolish t2 false = true ∨ (polish 2).isOk = false →
       (process_report [t1, t2, t3] gen polish).1.get? 1 =
         some ⟨t2, "## " ++ t2 ++ "\n\n*Error generating content: " ++
           e ++ "*"⟩) ∧
     (∀ p, polish 2 = .ok p → skipPolish t2 false = false →
       (process_report [t1, t2, t3] gen polish).1.get? 1 =
         some ⟨t2, p⟩) ∧
     ((process_report [t1, t2, t3] gen polish).1.get? 0 = some ⟨t1, c1⟩ ∨
      ∃ p, polish 1 = .ok p ∧
        (process_report [t1, t2, t3] gen polish).1.get? 0 =
          some ⟨t1, p⟩)) ∧
    generateMarkdownContent "R"
      [⟨"Section One", "## Section One\n\nAlpha body."⟩,
       ⟨"Section Two",
        generate_section_content_result "Section Two" (.error "boom")⟩,
       ⟨"Section Three", "## Section Three\n\nGamma body."⟩] =
      "# R\n\n[TOC]\n\n## Section One\n\nAlpha body.\n\n---\n\n" ++
        "## Section Two\n\n*Error generating content: boom*\n\n---\n\n" ++
        "## Section Three\n\nGamma body.\n\n---\n\n" := by
  have hsl : ∀ t, skipPolish t true = true := by
    intro t
    simp [skipPolish]
  have hb13 : ((1 : Nat) == 3) = false := rfl
  have hb23 : ((2 : Nat) == 3) = false := rfl
  have hL : ([t1, t2, t3] : List String).length = 3 := rfl
  have hlist : (process_report [t1, t2, t3] gen polish).1 =
      [sectionResult gen polish 3 1 t1, sectionResult gen polish 3 2 t2,
       sectionResult gen polish 3 3 t3] := by
    rw [process_report, hL, processGo_fst_cons, processGo_fst_cons,
      processGo_fst_cons]
    rfl
  have hs3 : sectionResult gen polish 3 3 t3 = ⟨t3, c3⟩ := by
    simp only [sectionResult, h3, show ((3 : Nat) == 3) = true from rfl,
      hsl, if_true, generate_section_content_result]
  have hs2marker : skipPolish t2 false = true ∨ (polish 2).isOk = false →
      sectionResult gen polish 3 2 t2 =
        ⟨t2, "## " ++ t2 ++ "\n\n*Error generating content: " ++ e ++
          "*"⟩ := by
    intro hcase
    simp only [sectionResult, h2, hb23, generate_section_content_result]
    rcases hcase with hsk | hpf
    · rw [if_pos hsk]
    · cases hp : polish 2 with
      | ok p =>
        rw [hp] at hpf
        simp [Except.isOk, Except.toBool] at hpf
      | error pe =>
        by_cases hsk : skipPolish t2 false = true
        · rw [if_pos hsk]
        · rw [if_neg hsk]
  have hs2p : ∀ p, polish 2 = .ok p → skipPolish t2 false = false →
      sectionResult gen polish 3 2 t2 = ⟨t2, p⟩ := by
    intro p hp hskf
    simp only [sectionResult, h2, hb23, generate_section_content_result]
    rw [if_neg (by rw [hskf]; simp), hp]
  have hs1 : sectionResult gen polish 3 1 t1 = ⟨t1, c1⟩ ∨
      ∃ p, polish 1 = .ok p ∧
        sectionResult gen polish 3 1 t1 = ⟨t1, p⟩ := by
    simp only [sectionResult, h1, hb13, generate_section_content_result]
    by_cases hsk : skipPolish t1 false = true
    · rw [if_pos hsk]
      exact Or.inl rfl
    · rw [if_neg hsk]
      cases hp : polish 1 with
      | ok p => exact Or.inr ⟨p, rfl, rfl⟩
      | error pe => exact Or.inl rfl
  refine ⟨⟨?_, ?_, ?_, ?_, ?_⟩, by rfl⟩
  · rw [hlist]
    simp [sectionResult_title]
  · rw [hlist]
    simp only [hs3]
    rfl
  · intro hcase
    rw [hlist]
    simp only [hs2marker hcase]
    rfl
  · intro p hp hskf
    rw [hlist]
    simp only [hs2p p hp hskf]
    rfl
  · rcases hs1 with h | ⟨p, hp, h⟩
    · refine Or.inl ?_
      rw [hlist]
      simp only [h]
      rfl
    · refine Or.inr ⟨p, hp, ?_⟩
      rw [hlist]
      simp only [h]
      rfl

/-- Witness for C2 (amended): a concrete run with section 2's generation
failing and polishing failing keeps all three slots and holds the
generation-error placeholder in slot 2. -/
theorem process_report_failure_isolation_witness :
    (process_report ["S1", "S2", "S3"] genFailsSecond polishFails).1.map
      ReportSection.title = ["S1", "S2", "S3"] ∧
    (process_report ["S1", "S2", "S3"] genFailsSecond
      polishFails).1.get? 1 =
      some ⟨"S2", "## S2\n\n*Error generating content: boom*"⟩ := by
  have h := (process_report_failure_isolation "S1" "S2" "S3" "generated"
    "generated" "boom" genFailsSecond polishFails rfl rfl rfl).1
  refine ⟨h.1, ?_⟩
  exact h.2.2.1 (Or.inr rfl)

theorem processGo_snd_cons (gen polish : Nat → Except String String)
    (total idx : Nat) (t : String) (rest : List String) :
    (processGo gen polish total idx (t :: rest)).2 =
      if skipPolish t (idx == total) = false
      then idx :: (processGo gen polish total (idx + 1) rest).2
      else (processGo gen polish total (idx + 1) rest).2 := by
  rw [processGo]
  by_cases hs : skipPolish t (idx == total) = true
  · rw [if_pos hs]
    have hn : ¬(skipPolish t (idx == total) = false) := by
      rw [hs]
      simp
    rw [if_neg hn]
  · have hsf : skipPolish t (idx == total) = false := by
      revert hs
      cases skipPolish t (idx == total) <;> simp
    rw [if_neg hs, if_pos hsf]
    cases polish idx <;> rfl

theorem processGo_polished_iff (gen polish : Nat → Except String String)
    (total : Nat) :
    ∀ (titles : List String) (idx j : Nat),
      j ∈ (processGo gen polish total idx titles).2 ↔
      ∃ k, ∃ hk : k < titles.length, j = idx + k ∧
        skipPolish (titles.get ⟨k, hk⟩) (j == total) = false := by
  intro titles
  induction titles with
  | nil =>
    intro idx j
    simp [processGo]
  | cons t rest ih =>
    intro idx j
    rw [processGo_snd_cons]
    by_cases hc : skipPolish t (idx == total) = false
    · rw [if_pos hc]
      simp only [List.mem_cons]
      rw [ih (idx + 1) j]
      constructor
      · rintro (rfl | ⟨k, hk, rfl, hskip⟩)
        · exact ⟨0, Nat.succ_pos _, by omega, hc⟩
        · exact ⟨k + 1, Nat.succ_lt_succ hk, by omega, hskip⟩
      · rintro ⟨k, hk, hkj, hskip⟩
        cases k with
        | zero => exact Or.inl (by omega)
        | succ k2 =>
          exact Or.inr ⟨k2, Nat.lt_of_succ_lt_succ hk, by omega, hskip⟩
    · rw [if_neg hc]
      rw [ih (idx + 1) j]
      constructor
      · rintro ⟨k, hk, rfl, hskip⟩
        exact ⟨k + 1, Nat.succ_lt_succ hk, by omega, hskip⟩
      · rintro ⟨k, hk, hkj, hskip⟩
        cases k with
        | zero =>
          exfalso
          have hj : j = idx := by omega
          subst hj
          exact hc hskip
        | succ k2 =>
          exact ⟨k2, Nat.lt_of_succ_lt_succ hk, by omega, hskip⟩

theorem main1SectionLoop_polishes_all
    (gen polish : Nat → Except String String) :
    ∀ (titles : List String) (start : Nat)
      (r : List String × List (Nat × String)),
      main1SectionLoop gen polish start titles = .ok r →
      r.2.map Prod.fst = List.range' start titles.length ∧
      r.2.map Prod.snd = titles := by
  intro titles
  induction titles with
  | nil =>
    intro start r h
    rw [main1SectionLoop] at h
    injection h with h
    rw [← h]
    simp [List.range']
  | cons t rest ih =>
    intro start r h
    rw [main1SectionLoop] at h
    cases hg : gen start with
    | error e => rw [hg] at h; exact absurd h (by simp)
    | ok c =>
      rw [hg] at h
      dsimp only at h
      cases hp : polish start with
      | error e => rw [hp] at h; exact absurd h (by simp)
      | ok p =>
        rw [hp] at h
        dsimp only at h
        cases hr : main1SectionLoop gen polish (start + 1) rest with
        | error e => rw [hr] at h; exact absurd h (by simp)
        | ok r2 =>
          rw [hr] at h
          dsimp only at h
          injection h with h
          obtain ⟨ha, hb⟩ := ih (start + 1) r2 hr
          rw [← h]
          refine ⟨?_, ?_⟩
          · simp [ha, List.range'_succ]
          · simp [hb]

/-- Generation outcomes that always succeed. -/
def genAllOk : Nat → Except String String := fun _ => .ok "generated"

/-- **C7 counterexample.** The claim is false for `main` of src/main1.py
(lines 415-434, a cited source of the claim): with demo mode off and a
three-section TOC ending in `References`, the loop passes every generated
section to `polish_content` — the pair `(3, "References")` below records
that the last section, whose title is a skip-list term, was polished. -/
theorem main1_polishes_last_references_section :
    main1SectionLoop genAllOk polishOk 1
      (main1SectionsToGenerate false
        ["Introduction", "Analysis", "References"]) =
      .ok (["polished", "polished", "polished"],
        [(1, "Introduction"), (2, "Analysis"), (3, "References")]) := by
  rfl

/-- **C7 (amended).** In `ReportGenerator.process_report` (src/app.py) a
section — whose content `generate_section_content` always returns, since
it catches its own errors — is passed to the polishing step exactly when
its title does not case-insensitively contain a skip-list term
(`appendix`, `appendices`, `references`) and it is not the last section:
`References`/`REFERENCES`/`Appendix A` titles and last sections are never
polished, `Market Overview` (not last) is.  The loop of `main` in
src/main1.py has no such check: whenever it completes, every section —
last and skip-titled ones included — was passed to `polish_content`. -/
theorem process_report_polish_skip (titles : List String)
    (gen polish : Nat → Except String String) (i : Nat)
    (h1 : 1 ≤ i) (h2 : i - 1 < titles.length) :
    (i ∈ (process_report titles gen polish).2 ↔
      skipPolish (titles.get ⟨i - 1, h2⟩) (i == titles.length) = false) ∧
    skipPolish "References" false = true ∧
    skipPolish "REFERENCES" false = true ∧
    skipPolish "Appendix A" false = true ∧
    skipPolish "Market Overview" false = false ∧
    skipPolish "Market Overview" true = true ∧
    (∀ (g p : Nat → Except String String) (ts : List String)
        (r : List String × List (Nat × String)),
      main1SectionLoop g p 1 ts = .ok r →
      r.2.map Prod.fst = List.range' 1 ts.length ∧
      r.2.map Prod.snd = ts) := by
  refine ⟨?_, by decide, by decide, by decide, by decide, by decide,
    fun g p ts r h => main1SectionLoop_polishes_all g p ts 1 r h⟩
  constructor
  · intro hmem
    rcases (processGo_polished_iff gen polish titles.length titles 1
      i).mp hmem with ⟨k, hk, hik, hskip⟩
    have hki : k = i - 1 := by omega
    subst hki
    exact hskip
  · intro hskip
    exact (processGo_polished_iff gen polish titles.length titles 1
      i).mpr ⟨i - 1, h2, by omega, hskip⟩

/-- Witness for C7 (amended): `Market Overview`, not last and not in the
skip list, is passed to the polishing step. -/
theorem process_report_polish_skip_witness :
    1 ∈ (process_report ["Market Overview", "References"] genAllOk
      polishOk).2 := by
  have h := (process_report_polish_skip ["Market Overview", "References"]
    genAllOk polishOk 1 (by decide) (by decide)).1
  exact h.mpr (by decide)

/-! ## File output

`save_report_files` (src/report_generator/file_output.py lines 175-226)
processes the page template with
`template.replace('{','{{').replace('}','}}')` then
`template.replace('{{content}}','{content}')`, builds
`html_doc = template.format(content=html_content)`, writes `template` —
not `html_doc` — to the `.html` file, passes `html_doc` to
`pdfkit.from_string`, and on a PDF error returns the HTML file path
instead of the PDF path.  `ReportGenerator.save_to_markdown`
(src/app.py lines 797-842) instead re-raises a PDF failure. -/

/-- Python `str.replace(a, b)` with nonempty `a`: replace every
non-overlapping occurrence, left to right.  The fuel (at least the scanned
length on every call) only makes the recursion structural. -/
def pyReplaceGo (a b : List Char) : Nat → List Char → List Char
  | _, [] => []
  | 0, l => l
  | fuel + 1, c :: rest =>
    if a.isPrefixOf (c :: rest) then
      b ++ pyReplaceGo a b fuel ((c :: rest).drop a.length)
    else c :: pyReplaceGo a b fuel rest

/-- Python `str.replace(a, b)` (an empty `a` is never used by the embedded
code). -/
def pyReplace (a b s : String) : String :=
  match a.data with
  | [] => s
  | _ :: _ => String.mk (pyReplaceGo a.data b.data s.data.length s.data)

/-- `template.replace('{', '{{').replace('}', '}}')`
(file_output.py line 176). -/
def bracesDoubled (t : String) : String :=
  pyReplace "\x7d" "\x7d\x7d" (pyReplace "\x7b" "\x7b\x7b" t)

/-- The processed template after
`template.replace('{{content}}', '{content}')` (file_output.py line 177):
this is the value written to the `.html` file. -/
def processedTemplate (t : String) : String :=
  pyReplace "\x7b\x7bcontent\x7d\x7d" "\x7bcontent\x7d" (bracesDoubled t)

/-- Python `str.format(content=arg)` on a template whose only replacement
field is `content`: `{{`/`}}` unescape to single braces and `{content}`
is substituted (any other brace use would raise in Python and does not
occur in the processed templates).  Fuel as above. -/
def formatContentGo (arg : List Char) : Nat → List Char → List Char
  | _, [] => []
  | 0, l => l
  | fuel + 1, c :: rest =>
    if ("\x7b\x7b".data).isPrefixOf (c :: rest) then
      '\x7b' :: formatContentGo arg fuel ((c :: rest).drop 2)
    else if ("\x7d\x7d".data).isPrefixOf (c :: rest) then
      '\x7d' :: formatContentGo arg fuel ((c :: rest).drop 2)
    else if ("\x7bcontent\x7d".data).isPrefixOf (c :: rest) then
      arg ++ formatContentGo arg fuel ((c :: rest).drop 9)
    else c :: formatContentGo arg fuel rest

/-- `template.format(content=htmlContent)` (file_output.py line 178). -/
def formatContent (t arg : String) : String :=
  String.mk (formatContentGo arg.data t.data.length t.data)

/-- What `save_report_files` does with the loaded template and the
rendered report HTML (file_output.py lines 175-226): the content written
to the `.html` file, the string passed to `pdfkit.from_string`, and the
path returned (`pdfOk` = whether the PDF conversion succeeded). -/
structure SaveOutcome where
  htmlWritten : String
  pdfSource : String
  returnedPath : String
deriving Repr, DecidableEq

/-- `save_report_files` (file_output.py lines 175-226), template/HTML/PDF
part: line 193 writes `template` (the processed template) to the HTML
file; line 215 passes `html_doc` to the PDF converter; lines 218-226
return the HTML path on PDF failure and the PDF path otherwise. -/
def save_report_files (template htmlContent htmlFile pdfFile : String)
    (pdfOk : Bool) : SaveOutcome :=
  let processed := processedTemplate template
  let html_doc := formatContent processed htmlContent
  { htmlWritten := processed,
    pdfSource := html_doc,
    returnedPath := if pdfOk then pdfFile else htmlFile }

/-- The result of `ReportGenerator.save_to_markdown` (src/app.py lines
797-842) as a function of the PDF conversion outcome: on success the
three paths are returned; a PDF failure is re-raised at lines 833-835 and
re-raised again by the outer handler at lines 840-842, so nothing is
returned. -/
def save_to_markdown (mdFile htmlFile pdfFile : String)
    (pdfResult : Except String Unit) :
    Except String (String × String × String) :=
  match pdfResult with
  | .ok _ => .ok (mdFile, htmlFile, pdfFile)
  | .error e => .error e

/-- **C9 counterexample.** The claim is false for
`ReportGenerator.save_to_markdown` (src/app.py lines 823-842, a cited
source of the claim): a PDF conversion failure is re-raised, the save
aborts, and no HTML path is returned as the deliverable. -/
theorem save_to_markdown_pdf_failure_raises :
    save_to_markdown "report.md" "report.html" "report.pdf"
      (.error "wkhtmltopdf failed") = .error "wkhtmltopdf failed" := by
  rfl

/-- **C9 (amended).** In `save_report_files`
(src/report_generator/file_output.py) a PDF conversion failure is
non-fatal: the HTML artifact, already written before the conversion, is
retained and its path is returned as the deliverable in place of the PDF
path; on success the PDF path is returned.  In
`ReportGenerator.save_to_markdown` (src/app.py) the same failure is
re-raised and aborts the save. -/
theorem save_report_files_html_fallback
    (template htmlContent htmlFile pdfFile mdFile e : String) :
    (save_report_files template htmlContent htmlFile pdfFile
      false).returnedPath = htmlFile ∧
    (save_report_files template htmlContent htmlFile pdfFile
      false).htmlWritten = processedTemplate template ∧
    (save_report_files template htmlContent htmlFile pdfFile
      true).returnedPath = pdfFile ∧
    save_to_markdown mdFile htmlFile pdfFile (.error e) = .error e :=
  ⟨rfl, rfl, rfl, rfl⟩

/-- **C10.** In `save_report_files` the HTML artifact equals the
brace-doubled page template still containing the literal `{content}`
placeholder — not the rendered `html_doc`: the written HTML is
independent of the report content, only the rendered document is passed
to the PDF converter, and on a concrete template the written HTML keeps
the `{content}` placeholder while the PDF source holds the report body. -/
theorem html_artifact_is_unrendered_template
    (template c1 c2 htmlFile pdfFile : String) (pdfOk : Bool) :
    (save_report_files template c1 htmlFile pdfFile pdfOk).htmlWritten =
      processedTemplate template ∧
    (save_report_files template c1 htmlFile pdfFile pdfOk).htmlWritten =
      (save_report_files template c2 htmlFile pdfFile pdfOk).htmlWritten ∧
    (save_report_files template c1 htmlFile pdfFile pdfOk).pdfSource =
      formatContent (processedTemplate template) c1 ∧
    (save_report_files "<html><body>\x7bcontent\x7d</body></html>"
      "THE REPORT BODY" htmlFile pdfFile pdfOk).htmlWritten =
      "<html><body>\x7bcontent\x7d</body></html>" ∧
    (save_report_files "<html><body>\x7bcontent\x7d</body></html>"
      "THE REPORT BODY" htmlFile pdfFile pdfOk).pdfSource =
      "<html><body>THE REPORT BODY</body></html>" ∧
    pyContainsSub "\x7bcontent\x7d".data
      (save_report_files "<html><body>\x7bcontent\x7d</body></html>"
        "THE REPORT BODY" htmlFile pdfFile pdfOk).htmlWritten.data =
      true :=
  ⟨rfl, rfl, rfl, rfl, rfl, rfl⟩
